import Mathlib

/-!
Shallow embedding of the pricing-impact simulation engine of
`src/agents/impact_simulator.py` (class `ImpactSimulationAgent`).

Modelling conventions:
* Python floats are modelled by exact rationals (`ℚ`); `round(x, n)` and
  `np.round` (round half to even) are modelled by `rint` / `roundTo`.
* A Python `ZeroDivisionError` aborts the enclosing call, so functions that
  can divide by zero return `Option`: `none` models the raised exception.
* Timestamps (`generated_at`) and the Gemini narrative text are omitted:
  they carry no numeric content.
* Categorical parameters that the source keeps as strings (competitive
  response level, price sensitivity, aggressiveness) stay strings, with the
  source's `dict.get(key, default)` lookups embedded as if-chains ending in
  the same default.
-/

namespace ImpactSim

/-- Round half to even to an integer, as Python's `round` and numpy's
rounding do (for exact rational inputs). -/
def rint (q : ℚ) : ℤ :=
  let f : ℤ := ⌊q⌋
  let r : ℚ := q - f
  if r < 1/2 then f
  else if 1/2 < r then f + 1
  else if f % 2 = 0 then f else f + 1

/-- `round(q, ndigits)` in Python: round half to even at `ndigits` decimal
places. -/
def roundTo (q : ℚ) (ndigits : ℕ) : ℚ :=
  (rint (q * (10 : ℚ) ^ ndigits) : ℚ) / (10 : ℚ) ^ ndigits

/-- `np.mean` over a list of rationals (sum divided by length; the source
only evaluates it on nonempty lists along non-raising paths). -/
def npMean (l : List ℚ) : ℚ := l.sum / l.length

/-- One pricing-change record, as consumed by the simulator.  In the source
this is a dict with keys `product_name`, `current_price`, `new_price`,
`price_change_percent`, `current_monthly_volume` (the last read through
`change.get('current_monthly_volume', 100)`; the default is resolved at
construction here). -/
structure PricingChange where
  product_name : String
  current_price : ℚ
  new_price : ℚ
  price_change_percent : ℚ
  current_monthly_volume : ℚ
deriving Repr, DecidableEq

/-- Market-conditions dict.  `income_elasticity` and `cross_elasticity`
appear in the source's default dict but are never read by any computation,
so they are omitted. -/
structure MarketConditions where
  price_elasticity : ℚ
  seasonal_factor : ℚ
  competitive_response : String
deriving Repr, DecidableEq

/-- The default market conditions built when `market_conditions is None`
(`impact_simulator.py` lines 73-80). -/
def defaultMarketConditions : MarketConditions :=
  { price_elasticity := -12/10, seasonal_factor := 1, competitive_response := "moderate" }

/-- The `elasticity_factors` sub-dict of a simulation result. -/
structure ElasticityFactors where
  base_elasticity : ℚ
  seasonal_adjustment : ℚ
  competitive_adjustment : ℚ
deriving Repr, DecidableEq

/-- Per-product simulation result dict of `simulate_demand_impact`. -/
structure SimulationResult where
  product_name : String
  price_change_percent : ℚ
  demand_change_percent : ℚ
  current_volume : ℚ
  projected_volume : ℚ
  volume_change : ℚ
  current_revenue : ℚ
  projected_revenue : ℚ
  revenue_change : ℚ
  revenue_change_percent : ℚ
  elasticity_factors : ElasticityFactors
deriving Repr, DecidableEq

/-- Python's `str.lower()` on the ASCII category strings used by the source
(embedded at the character-list level so that it evaluates in proofs). -/
def pyLower (s : String) : String := String.mk (s.data.map Char.toLower)

/-- `_calculate_competitive_adjustment` (lines 131-140): table lookup on the
lower-cased response level, defaulting to `-0.05`. -/
def calculate_competitive_adjustment (response_level : String) : ℚ :=
  let k := pyLower response_level
  if k = "none" then 0
  else if k = "low" then -1/50
  else if k = "moderate" then -1/20
  else if k = "high" then -1/10
  else if k = "aggressive" then -3/20
  else -1/20

/-- Body of the per-change loop of `simulate_demand_impact` (lines 84-122).
`none` models the `ZeroDivisionError` raised at the
`revenue_change_percent` entry when `current_revenue` is zero. -/
def simulateOne (change : PricingChange) (mc : MarketConditions) : Option SimulationResult :=
  let price_change_percent := change.price_change_percent / 100
  let base_demand_change := price_change_percent * mc.price_elasticity
  let seasonal_adjustment := mc.seasonal_factor - 1
  let competitive_adjustment := calculate_competitive_adjustment mc.competitive_response
  let total_demand_change := base_demand_change + seasonal_adjustment + competitive_adjustment
  let current_volume := change.current_monthly_volume
  let new_volume := current_volume * (1 + total_demand_change)
  let current_revenue := change.current_price * current_volume
  let new_revenue := change.new_price * new_volume
  if current_revenue = 0 then none
  else some
    { product_name := change.product_name
      price_change_percent := change.price_change_percent
      demand_change_percent := roundTo (total_demand_change * 100) 2
      current_volume := current_volume
      projected_volume := roundTo new_volume 0
      volume_change := roundTo (new_volume - current_volume) 0
      current_revenue := roundTo current_revenue 2
      projected_revenue := roundTo new_revenue 2
      revenue_change := roundTo (new_revenue - current_revenue) 2
      revenue_change_percent := roundTo ((new_revenue - current_revenue) / current_revenue * 100) 2
      elasticity_factors :=
        { base_elasticity := mc.price_elasticity
          seasonal_adjustment := seasonal_adjustment
          competitive_adjustment := competitive_adjustment } }

/-- The `for change in pricing_changes` loop: results accumulate in order;
an exception in any iteration aborts the whole call. -/
def simulateAll (changes : List PricingChange) (mc : MarketConditions) :
    Option (List SimulationResult) :=
  match changes with
  | [] => some []
  | c :: cs =>
    match simulateOne c mc, simulateAll cs mc with
    | some r, some rs => some (r :: rs)
    | _, _ => none

/-- Aggregate dict of `_calculate_aggregate_impact` (lines 142-155). -/
structure AggregateImpact where
  total_revenue_change : ℚ
  total_revenue_change_percent : ℚ
  total_volume_change : ℚ
  products_with_positive_impact : ℕ
  products_with_negative_impact : ℕ
  average_price_change : ℚ
deriving Repr, DecidableEq

/-- `_calculate_aggregate_impact` (lines 142-155).  `none` models the
`ZeroDivisionError` raised at the `total_revenue_change_percent` entry when
the summed (already rounded) per-product current revenues are zero — in
particular for an empty simulation list. -/
def calculate_aggregate_impact (simulations : List SimulationResult) :
    Option AggregateImpact :=
  let total_current_revenue := (simulations.map (·.current_revenue)).sum
  let total_projected_revenue := (simulations.map (·.projected_revenue)).sum
  let total_volume_change := (simulations.map (·.volume_change)).sum
  if total_current_revenue = 0 then none
  else some
    { total_revenue_change := roundTo (total_projected_revenue - total_current_revenue) 2
      total_revenue_change_percent :=
        roundTo ((total_projected_revenue - total_current_revenue) / total_current_revenue * 100) 2
      total_volume_change := total_volume_change
      products_with_positive_impact :=
        (simulations.filter (fun s => decide (s.revenue_change > 0))).length
      products_with_negative_impact :=
        (simulations.filter (fun s => decide (s.revenue_change < 0))).length
      average_price_change := npMean (simulations.map (·.price_change_percent)) }

/-- Return dict of `simulate_demand_impact` (lines 124-129), without the
timestamp. -/
structure DemandImpactResult where
  simulations : List SimulationResult
  market_conditions : MarketConditions
  aggregate_impact : AggregateImpact
deriving Repr, DecidableEq

/-- `simulate_demand_impact` (lines 61-129).  The optional
`market_conditions` parameter (`None` default) becomes `Option`;
`none` output models an uncaught exception aborting the call. -/
def simulate_demand_impact (pricing_changes : List PricingChange)
    (market_conditions : Option MarketConditions) : Option DemandImpactResult :=
  let mc := market_conditions.getD defaultMarketConditions
  match simulateAll pricing_changes mc with
  | none => none
  | some sims =>
    match calculate_aggregate_impact sims with
    | none => none
    | some agg =>
      some { simulations := sims, market_conditions := mc, aggregate_impact := agg }

/-- The example pricing change of the spec's end-to-end scenario. -/
def productA : PricingChange :=
  { product_name := "Product A", current_price := 100, new_price := 110
    price_change_percent := 10, current_monthly_volume := 1000 }

/-! ### Segment impact simulator (`simulate_customer_segment_impact`, lines 157-238) -/

/-- Customer-segment dict.  `price_sensitivity` and `size_percent` are read
through `segment.get(..., 'medium')` / `segment.get(..., 25)`; the defaults
are resolved at construction here. -/
structure CustomerSegment where
  name : String
  price_sensitivity : String
  size_percent : ℚ
deriving Repr, DecidableEq

/-- The `elasticity_map` lookup of lines 177-183:
`elasticity_map.get(price_sensitivity, -1.2)`. -/
def elasticity_map (price_sensitivity : String) : ℚ :=
  if price_sensitivity = "low" then -4/5
  else if price_sensitivity = "medium" then -12/10
  else if price_sensitivity = "high" then -18/10
  else if price_sensitivity = "very_high" then -25/10
  else -12/10

/-- `_assess_segment_risk` (lines 217-226).  The `sensitivity` argument is
passed by the source but never read. -/
def assess_segment_risk (demand_change : ℚ) (sensitivity : String) : String :=
  if |demand_change| < 5/100 then "low"
  else if |demand_change| < 15/100 then "medium"
  else if |demand_change| < 25/100 then "high"
  else "very_high"

/-- Per-(segment, product) impact dict (lines 200-205). -/
structure ProductImpact where
  product_name : String
  segment_demand_change_percent : ℚ
  segment_contribution_to_total : ℚ
  risk_level : String
deriving Repr, DecidableEq

/-- Per-segment impact dict (lines 185-207). -/
structure SegmentImpact where
  segment_name : String
  segment_size_percent : ℚ
  price_sensitivity : String
  elasticity : ℚ
  product_impacts : List ProductImpact
deriving Repr, DecidableEq

/-- Body of the inner `for change in pricing_changes` loop
(lines 193-207). -/
def segmentProductImpact (segment_elasticity segment_size : ℚ) (sensitivity : String)
    (change : PricingChange) : ProductImpact :=
  let price_change_percent := change.price_change_percent / 100
  let demand_change := price_change_percent * segment_elasticity
  let segment_volume_impact := demand_change * (segment_size / 100)
  { product_name := change.product_name
    segment_demand_change_percent := roundTo (demand_change * 100) 2
    segment_contribution_to_total := roundTo (segment_volume_impact * 100) 2
    risk_level := assess_segment_risk demand_change sensitivity }

/-- The `overall_risk_assessment` dict of `_assess_overall_segment_risk`
(lines 228-238). -/
structure OverallSegmentRisk where
  high_risk_segment_count : ℕ
  high_risk_segments : List String
  overall_risk_level : String
deriving Repr, DecidableEq

/-- `_assess_overall_segment_risk` (lines 228-238).  In the source the
comparison is `len(high_risk_segments) > len(segment_impacts) / 2` with
Python's true (rational) division. -/
def assess_overall_segment_risk (segment_impacts : List SegmentImpact) : OverallSegmentRisk :=
  let high_risk_segments := segment_impacts.filter fun s =>
    s.product_impacts.any fun p => p.risk_level == "high" || p.risk_level == "very_high"
  { high_risk_segment_count := high_risk_segments.length
    high_risk_segments := high_risk_segments.map (·.segment_name)
    overall_risk_level :=
      if (high_risk_segments.length : ℚ) > (segment_impacts.length : ℚ) / 2
      then "high" else "medium" }

/-- Return dict of `simulate_customer_segment_impact` (lines 211-215),
without the timestamp. -/
structure SegmentImpactResult where
  segment_impacts : List SegmentImpact
  overall_risk_assessment : OverallSegmentRisk
deriving Repr, DecidableEq

/-- `simulate_customer_segment_impact` (lines 157-215). -/
def simulate_customer_segment_impact (pricing_changes : List PricingChange)
    (customer_segments : List CustomerSegment) : SegmentImpactResult :=
  let segment_impacts := customer_segments.map fun segment =>
    let segment_elasticity := elasticity_map segment.price_sensitivity
    { segment_name := segment.name
      segment_size_percent := segment.size_percent
      price_sensitivity := segment.price_sensitivity
      elasticity := segment_elasticity
      product_impacts := pricing_changes.map
        (segmentProductImpact segment_elasticity segment.size_percent segment.price_sensitivity) }
  { segment_impacts := segment_impacts
    overall_risk_assessment := assess_overall_segment_risk segment_impacts }

/-! ### Competitive response simulator (`simulate_competitive_response`, lines 240-362) -/

/-- The aggressiveness-multiplier lookup inside
`_calculate_response_probability` (lines 305-310):
`{...}.get(aggressiveness, 1.0)`. -/
def aggressiveness_multiplier (aggressiveness : String) : ℚ :=
  if aggressiveness = "low" then 7/10
  else if aggressiveness = "medium" then 1
  else if aggressiveness = "high" then 13/10
  else if aggressiveness = "very_high" then 16/10
  else 1

/-- `_calculate_response_probability` (lines 299-316). -/
def calculate_response_probability (price_change_magnitude : ℚ) (aggressiveness : String)
    (market_share : ℚ) : ℚ :=
  let base_probability := min (price_change_magnitude / 20) (8/10)
  let market_share_multiplier := 1 + market_share / 100
  let probability :=
    base_probability * aggressiveness_multiplier aggressiveness * market_share_multiplier
  min probability (95/100)

/-- The `response_ratios` lookup of `_estimate_competitor_response`
(lines 324-331): `response_ratios.get(aggressiveness, 0.6)`. -/
def response_ratios (aggressiveness : String) : ℚ :=
  if aggressiveness = "low" then 3/10
  else if aggressiveness = "medium" then 6/10
  else if aggressiveness = "high" then 9/10
  else if aggressiveness = "very_high" then 12/10
  else 6/10

/-- Return dict of `_estimate_competitor_response` (lines 344-348). -/
structure CompetitorResponse where
  response_percent : ℚ
  type : String
  impact_on_us : ℚ
deriving Repr, DecidableEq

/-- `_estimate_competitor_response` (lines 318-348). -/
def estimate_competitor_response (change : PricingChange) (aggressiveness : String)
    (market_share : ℚ) : CompetitorResponse :=
  let our_change_percent := change.price_change_percent
  let response_ratio := response_ratios aggressiveness
  let competitor_response_percent := our_change_percent * response_ratio
  let response_type :=
    if our_change_percent > 0 then
      if competitor_response_percent > 0 then "follow_increase" else "maintain_price"
    else
      if competitor_response_percent < 0 then "follow_decrease" else "price_war"
  let impact_magnitude := |competitor_response_percent| * (market_share / 100) * (5/10)
  let impact_on_us :=
    if competitor_response_percent * our_change_percent < 0
    then -impact_magnitude else impact_magnitude
  { response_percent := roundTo competitor_response_percent 2
    type := response_type
    impact_on_us := roundTo impact_on_us 3 }

/-! ### Monte Carlo engine (`run_monte_carlo_simulation`, lines 364-430)

The source draws `elasticity`, `seasonal_factor` and `competitive_intensity`
per run from numpy random distributions.  The engine is embedded as a
deterministic function of the drawn sample sequence, one triple per run. -/

/-- One run's sampled parameters. -/
structure MonteCarloSample where
  elasticity : ℚ
  seasonal_factor : ℚ
  competitive_intensity : ℚ
deriving Repr, DecidableEq

/-- The per-run revenue accumulation of lines 397-406. -/
def run_revenue (pricing_changes : List PricingChange) (s : MonteCarloSample) : ℚ :=
  (pricing_changes.map fun change =>
    let price_change_percent := change.price_change_percent / 100
    let demand_change :=
      price_change_percent * s.elasticity * s.seasonal_factor - s.competitive_intensity
    let current_volume := change.current_monthly_volume
    let new_volume := current_volume * (1 + demand_change)
    change.new_price * new_volume).sum

/-- `np.mean(results_array < 0)` rounded to 3 places (line 425): the mean of
the 0/1 indicator of a strictly negative revenue. -/
def probabilityOfLoss (results : List ℚ) : ℚ :=
  roundTo (npMean (results.map fun r => if r < 0 then (1 : ℚ) else 0)) 3

/-- The fields of the Monte Carlo return dict used by the claims
(`simulation_runs` and `risk_metrics.probability_of_loss`); the remaining
distribution statistics (mean, median, percentiles, ...) are not needed by
any claim and are omitted. -/
structure MonteCarloResult where
  simulation_runs : ℕ
  probability_of_loss : ℚ
deriving Repr, DecidableEq

/-- `run_monte_carlo_simulation` (lines 364-430), as a function of the
sampled parameter sequence (one `MonteCarloSample` per run). -/
def run_monte_carlo_simulation (pricing_changes : List PricingChange)
    (samples : List MonteCarloSample) : MonteCarloResult :=
  let results := samples.map (run_revenue pricing_changes)
  { simulation_runs := samples.length
    probability_of_loss := probabilityOfLoss results }

/-! ### Report assembler (`_assess_overall_risk_level`, lines 562-591) -/

/-- `needle` occurs as a contiguous substring of `hay` (the chars of a
Python `in` test on strings). -/
def subOfChars (needle : List Char) : List Char → Bool
  | [] => needle.isEmpty
  | c :: t => needle.isPrefixOf (c :: t) || subOfChars needle t

/-- Python's `needle in s` substring test. -/
def strContains (needle s : String) : Bool := subOfChars needle.data s.data

/-- `_assess_overall_risk_level` (lines 562-591).  The function reads only
`monte_carlo['risk_metrics']['probability_of_loss']`, the segment report's
`overall_risk_assessment.overall_risk_level` and the competitive report's
`summary.competitive_risk_level`; the two optional reports are abstracted to
those fields (`none` models the Python `None` report, making the
`segment_impact and ...` / `competitive_impact and ...` guards false). -/
def assess_overall_risk_level (probability_of_loss : ℚ)
    (segment_overall_risk_level competitive_risk_level : Option String) : String :=
  let risk_factors : List String :=
    (if probability_of_loss > 3/10 then ["high_monte_carlo"]
     else if probability_of_loss > 1/10 then ["medium_monte_carlo"] else [])
    ++ (if segment_overall_risk_level = some "high" then ["high_segment"] else [])
    ++ (if competitive_risk_level = some "high" then ["high_competitive"] else [])
  let high_risk_count := (risk_factors.filter fun r => strContains "high" r).length
  if high_risk_count ≥ 2 then "high"
  else if high_risk_count = 1 ∨ risk_factors.length ≥ 2 then "medium"
  else "low"

/-! ## Claim theorems -/

lemma pyLower_moderate : pyLower "moderate" = "moderate" := by decide

lemma cca_moderate : calculate_competitive_adjustment "moderate" = -1/20 := by
  simp [calculate_competitive_adjustment, pyLower_moderate]

def productA_result : SimulationResult :=
  { product_name := "Product A"
    price_change_percent := 10
    demand_change_percent := -17
    current_volume := 1000
    projected_volume := 830
    volume_change := -170
    current_revenue := 100000
    projected_revenue := 91300
    revenue_change := -8700
    revenue_change_percent := -87/10
    elasticity_factors :=
      { base_elasticity := -6/5, seasonal_adjustment := 0, competitive_adjustment := -1/20 } }

def productA_aggregate : AggregateImpact :=
  { total_revenue_change := -8700
    total_revenue_change_percent := -87/10
    total_volume_change := -170
    products_with_positive_impact := 0
    products_with_negative_impact := 1
    average_price_change := 10 }

/-- C1: the end-to-end demand scenario: one change (100 -> 110, volume 1000)
under default market conditions yields demand change -17%, projected volume
830, current revenue 100000, projected revenue 91300, revenue change -8700
(-8.7%). -/
theorem C1_demand_end_to_end : simulate_demand_impact [productA] none = some
    { simulations := [productA_result]
      market_conditions := defaultMarketConditions
      aggregate_impact := productA_aggregate } := by
  simp only [simulate_demand_impact, simulateAll, simulateOne,
    calculate_aggregate_impact, defaultMarketConditions, productA, Option.getD,
    productA_result, productA_aggregate, cca_moderate]
  norm_num [roundTo, rint, npMean, List.filter]

def zeroVolumeChange : PricingChange :=
  { product_name := "Zero Volume", current_price := 100, new_price := 110
    price_change_percent := 10, current_monthly_volume := 0 }

/-- C2 counterexample: a request holding a zero-current-revenue change and a
valid change returns nothing at all (the `ZeroDivisionError` aborts the
whole call), rather than a sentinel plus results for the valid change. -/
theorem C2_counterexample :
    zeroVolumeChange.current_price * zeroVolumeChange.current_monthly_volume = 0 ∧
    simulate_demand_impact [zeroVolumeChange, productA] none = none := by
  constructor
  · norm_num [zeroVolumeChange]
  · simp [simulate_demand_impact, simulateAll, simulateOne, zeroVolumeChange]

lemma simulateOne_eq_none (c : PricingChange) (mc : MarketConditions)
    (h : c.current_price * c.current_monthly_volume = 0) : simulateOne c mc = none := by
  simp [simulateOne, h]

lemma simulateAll_eq_none (mc : MarketConditions) :
    ∀ changes : List PricingChange, ∀ c ∈ changes, simulateOne c mc = none →
      simulateAll changes mc = none := by
  intro changes
  induction changes with
  | nil => intro c hc; exact absurd hc (List.not_mem_nil c)
  | cons a as ih =>
    intro c hc hnone
    rcases List.mem_cons.mp hc with h | h
    · subst h; simp [simulateAll, hnone]
    · have htail := ih c h hnone
      simp only [simulateAll, htail]
      cases simulateOne a mc <;> rfl

/-- C2 (amended): whenever any pricing change in the request has zero
current revenue (price x volume = 0), `simulate_demand_impact` raises and
the whole request produces no results. -/
theorem C2_zero_revenue_aborts_request (pricing_changes : List PricingChange)
    (market_conditions : Option MarketConditions) (c : PricingChange)
    (hmem : c ∈ pricing_changes)
    (hzero : c.current_price * c.current_monthly_volume = 0) :
    simulate_demand_impact pricing_changes market_conditions = none := by
  have h := simulateAll_eq_none (market_conditions.getD defaultMarketConditions)
    pricing_changes c hmem
    (simulateOne_eq_none c (market_conditions.getD defaultMarketConditions) hzero)
  simp [simulate_demand_impact, h]

/-- Witness for C2 at a single zero-volume change. -/
theorem C2_witness : simulate_demand_impact [zeroVolumeChange] none = none :=
  C2_zero_revenue_aborts_request [zeroVolumeChange] none zeroVolumeChange
    (by simp) (by norm_num [zeroVolumeChange])

/-- C3 counterexample: an empty change list makes the aggregate computation
divide by a zero total current revenue and raise, instead of returning an
all-zero aggregate. -/
theorem C3_counterexample : simulate_demand_impact [] none = none := by decide

/-- C3 (amended): for every market-conditions argument, an empty pricing
change list makes `simulate_demand_impact` raise (`none`), not return an
all-zero aggregate. -/
theorem C3_empty_list_raises (market_conditions : Option MarketConditions) :
    simulate_demand_impact [] market_conditions = none := by
  simp [simulate_demand_impact, simulateAll, calculate_aggregate_impact]

def invalidChange : PricingChange :=
  { product_name := "Invalid", current_price := -5, new_price := -6
    price_change_percent := 20, current_monthly_volume := 10 }

/-- C4 counterexample: a change with a non-positive current price is not
rejected: the simulator produces output for the request. -/
theorem C4_counterexample :
    invalidChange.current_price ≤ 0 ∧
    (simulate_demand_impact [invalidChange] none).isSome = true := by
  constructor
  · norm_num [invalidChange]
  · simp only [simulate_demand_impact, simulateAll, simulateOne,
      calculate_aggregate_impact, defaultMarketConditions, invalidChange, Option.getD,
      cca_moderate]
    norm_num [roundTo, rint, npMean, List.filter]

lemma simulateOne_isSome (c : PricingChange) (mc : MarketConditions)
    (h : c.current_price * c.current_monthly_volume ≠ 0) :
    ∃ r, simulateOne c mc = some r ∧
      r.current_revenue = roundTo (c.current_price * c.current_monthly_volume) 2 := by
  simp only [simulateOne]
  rw [if_neg h]
  exact ⟨_, rfl, rfl⟩

lemma simulateAll_isSome (mc : MarketConditions) :
    ∀ changes : List PricingChange,
      (∀ c ∈ changes, c.current_price * c.current_monthly_volume ≠ 0) →
      ∃ sims, simulateAll changes mc = some sims ∧ sims.length = changes.length ∧
        sims.map (·.current_revenue)
          = changes.map (fun c => roundTo (c.current_price * c.current_monthly_volume) 2) := by
  intro changes
  induction changes with
  | nil => exact fun _ => ⟨[], rfl, rfl, rfl⟩
  | cons a as ih =>
    intro h
    obtain ⟨r, hr, hrev⟩ := simulateOne_isSome a mc (h a (List.mem_cons_self a as))
    obtain ⟨sims, hs, hlen, hmap⟩ := ih (fun c hc => h c (List.mem_cons_of_mem a hc))
    exact ⟨r :: sims, by simp [simulateAll, hr, hs], by simp [hlen], by simp [hmap, hrev]⟩

/-- C4 (amended): no validation happens: every request whose changes have
nonzero current revenue (and nonzero total) is fully simulated, one result
per change, regardless of price signs or any other field. -/
theorem C4_no_input_validation (pricing_changes : List PricingChange)
    (market_conditions : Option MarketConditions)
    (hrev : ∀ c ∈ pricing_changes, c.current_price * c.current_monthly_volume ≠ 0)
    (htot : (pricing_changes.map
        (fun c => roundTo (c.current_price * c.current_monthly_volume) 2)).sum ≠ 0) :
    ∃ r, simulate_demand_impact pricing_changes market_conditions = some r ∧
      r.simulations.length = pricing_changes.length := by
  obtain ⟨sims, hs, hlen, hmap⟩ :=
    simulateAll_isSome (market_conditions.getD defaultMarketConditions) pricing_changes hrev
  have htot' : (sims.map (·.current_revenue)).sum ≠ 0 := by rw [hmap]; exact htot
  have hagg : ∃ agg, calculate_aggregate_impact sims = some agg := by
    simp only [calculate_aggregate_impact]
    rw [if_neg htot']
    exact ⟨_, rfl⟩
  obtain ⟨agg, hagg⟩ := hagg
  refine ⟨⟨sims, market_conditions.getD defaultMarketConditions, agg⟩, ?_, hlen⟩
  simp only [simulate_demand_impact, hs, hagg]

lemma invalid_sum_ne :
    ([invalidChange].map
      (fun c => roundTo (c.current_price * c.current_monthly_volume) 2)).sum ≠ 0 := by
  simp only [List.map_cons, List.map_nil, List.sum_cons, List.sum_nil, invalidChange]
  norm_num [roundTo, rint, Int.fract]

/-- Witness for C4 at a single negative-price change. -/
theorem C4_witness :
    ∃ r, simulate_demand_impact [invalidChange] none = some r ∧
      r.simulations.length = [invalidChange].length :=
  C4_no_input_validation [invalidChange] none
    (by intro c hc; simp at hc; subst hc; norm_num [invalidChange])
    invalid_sum_ne


lemma aggressiveness_multiplier_pos (a : String) : 0 < aggressiveness_multiplier a := by
  unfold aggressiveness_multiplier; split_ifs <;> norm_num

/-- C5: for fixed aggressiveness and (non-negative) market share the
competitive response probability is monotonically non-decreasing in the
price-change magnitude, and for every input it is capped at 0.95. -/
theorem C5_response_probability_monotone_capped (aggressiveness : String)
    (market_share m1 m2 : ℚ) (hms : 0 ≤ market_share) (h : m1 ≤ m2) :
    calculate_response_probability m1 aggressiveness market_share ≤
      calculate_response_probability m2 aggressiveness market_share ∧
    ∀ (mag : ℚ) (ag : String) (share : ℚ),
      calculate_response_probability mag ag share ≤ 95/100 := by
  constructor
  · simp only [calculate_response_probability]
    have hA : (0:ℚ) < aggressiveness_multiplier aggressiveness :=
      aggressiveness_multiplier_pos aggressiveness
    have hM : (0:ℚ) ≤ 1 + market_share / 100 := by linarith
    have hbase : min (m1 / 20) (8/10) ≤ min (m2 / 20) (8/10) :=
      min_le_min (by linarith) le_rfl
    have : min (m1 / 20) (8/10) * aggressiveness_multiplier aggressiveness
          * (1 + market_share / 100)
        ≤ min (m2 / 20) (8/10) * aggressiveness_multiplier aggressiveness
          * (1 + market_share / 100) := by
      apply mul_le_mul_of_nonneg_right _ hM
      exact mul_le_mul_of_nonneg_right hbase hA.le
    exact min_le_min this le_rfl
  · intro mag ag share
    simp only [calculate_response_probability]
    exact min_le_right _ _

/-- Witness for C5 at magnitudes 10 ≤ 20, aggressiveness "high", market
share 25. -/
theorem C5_witness :
    calculate_response_probability 10 "high" 25 ≤ calculate_response_probability 20 "high" 25 ∧
    ∀ (mag : ℚ) (ag : String) (share : ℚ),
      calculate_response_probability mag ag share ≤ 95/100 :=
  C5_response_probability_monotone_capped "high" 25 10 20 (by norm_num) (by norm_num)

/-- C8: `_assess_segment_risk` classifies by |demand change| with the
boundaries closed upward; in particular exactly 0.05 is "medium". -/
theorem C8_segment_risk_thresholds (demand_change : ℚ) (sensitivity : String) :
    (assess_segment_risk demand_change sensitivity = "low" ↔ |demand_change| < 5/100) ∧
    (assess_segment_risk demand_change sensitivity = "medium" ↔
      5/100 ≤ |demand_change| ∧ |demand_change| < 15/100) ∧
    (assess_segment_risk demand_change sensitivity = "high" ↔
      15/100 ≤ |demand_change| ∧ |demand_change| < 25/100) ∧
    (assess_segment_risk demand_change sensitivity = "very_high" ↔ 25/100 ≤ |demand_change|) ∧
    assess_segment_risk (5/100) sensitivity = "medium" := by
  refine ⟨?_, ?_, ?_, ?_, ?_⟩ <;> unfold assess_segment_risk
  case _ | _ | _ | _ =>
    split_ifs with h1 h2 h3 <;> simp_all <;>
      first
        | (intro h; linarith)
        | (constructor <;> linarith)
        | linarith
  · rw [abs_of_nonneg (by norm_num : (0:ℚ) ≤ 5/100)]
    norm_num

lemma half_lt_iff (k n : ℕ) : (n : ℚ) / 2 < (k : ℚ) ↔ n < 2 * k := by
  rw [div_lt_iff₀ (by norm_num : (0:ℚ) < 2)]
  have hcast : ((n:ℚ) < (k:ℚ) * 2) ↔ (n < k * 2) := by exact_mod_cast Iff.rfl
  rw [hcast]
  omega

lemma overall_segment_risk_cases (si : List SegmentImpact) :
    ((assess_overall_segment_risk si).overall_risk_level = "high" ↔
      si.length < 2 * (si.filter fun s => s.product_impacts.any
        fun p => p.risk_level == "high" || p.risk_level == "very_high").length) ∧
    ((assess_overall_segment_risk si).overall_risk_level = "high" ∨
     (assess_overall_segment_risk si).overall_risk_level = "medium") := by
  simp only [assess_overall_segment_risk]
  split_ifs with h
  · exact ⟨iff_of_true rfl ((half_lt_iff _ _).mp h), Or.inl rfl⟩
  · refine ⟨⟨fun hcontr => absurd hcontr (by decide),
      fun hlt => absurd ((half_lt_iff _ _).mpr hlt) h⟩, Or.inr rfl⟩

/-- C9: the segment rollup risk level is "high" exactly when strictly more
than half of the segments have a product impact classified high or
very_high, is "medium" in every other case, and is therefore never
"low". -/
theorem C9_overall_segment_rollup (pricing_changes : List PricingChange)
    (customer_segments : List CustomerSegment) :
    (((simulate_customer_segment_impact pricing_changes customer_segments).overall_risk_assessment.overall_risk_level = "high") ↔
      (simulate_customer_segment_impact pricing_changes customer_segments).segment_impacts.length <
        2 * ((simulate_customer_segment_impact pricing_changes customer_segments).segment_impacts.filter
          fun s => s.product_impacts.any
            fun p => p.risk_level == "high" || p.risk_level == "very_high").length) ∧
    (((simulate_customer_segment_impact pricing_changes customer_segments).overall_risk_assessment.overall_risk_level = "medium") ↔
      ¬ ((simulate_customer_segment_impact pricing_changes customer_segments).segment_impacts.length <
        2 * ((simulate_customer_segment_impact pricing_changes customer_segments).segment_impacts.filter
          fun s => s.product_impacts.any
            fun p => p.risk_level == "high" || p.risk_level == "very_high").length)) ∧
    ((simulate_customer_segment_impact pricing_changes customer_segments).overall_risk_assessment.overall_risk_level ≠ "low") := by
  have h := overall_segment_risk_cases
    (simulate_customer_segment_impact pricing_changes customer_segments).segment_impacts
  have hproj : (simulate_customer_segment_impact pricing_changes customer_segments).overall_risk_assessment
      = assess_overall_segment_risk
        (simulate_customer_segment_impact pricing_changes customer_segments).segment_impacts := by
    simp [simulate_customer_segment_impact]
  rw [hproj]
  refine ⟨h.1, ⟨?_, ?_⟩, ?_⟩
  · intro hmed hcond
    exact absurd (hmed.symm.trans (h.1.mpr hcond)) (by decide)
  · intro hncond
    rcases h.2 with h2 | h2
    · exact absurd (h.1.mp h2) hncond
    · exact h2
  · rcases h.2 with h2 | h2 <;> rw [h2] <;> decide

lemma rint_nonneg (q : ℚ) (h : 0 ≤ q) : 0 ≤ rint q := by
  have hf : 0 ≤ ⌊q⌋ := Int.floor_nonneg.mpr h
  simp only [rint]
  split_ifs <;> omega

lemma roundTo_nonneg (q : ℚ) (d : ℕ) (h : 0 ≤ q) : 0 ≤ roundTo q d := by
  unfold roundTo
  apply div_nonneg _ (by positivity)
  exact_mod_cast rint_nonneg _ (by positivity)

/-- C10: every response ratio is positive, the opposing-direction branch of
`_estimate_competitor_response` is never taken, and the resulting
`impact_on_us` is non-negative (for a market share ≥ 0, as the data model
requires). -/
theorem C10_impact_on_us_nonneg (change : PricingChange) (aggressiveness : String)
    (market_share : ℚ) (hpc : change.price_change_percent ≠ 0) (hms : 0 ≤ market_share) :
    0 < response_ratios aggressiveness ∧
    ¬ (change.price_change_percent * response_ratios aggressiveness
        * change.price_change_percent < 0) ∧
    0 ≤ (estimate_competitor_response change aggressiveness market_share).impact_on_us := by
  have hr : 0 < response_ratios aggressiveness := by
    unfold response_ratios; split_ifs <;> norm_num
  have hprod : 0 ≤ change.price_change_percent * response_ratios aggressiveness
      * change.price_change_percent := by nlinarith [sq_nonneg change.price_change_percent]
  refine ⟨hr, not_lt.mpr hprod, ?_⟩
  simp only [estimate_competitor_response]
  rw [if_neg (not_lt.mpr hprod)]
  apply roundTo_nonneg
  have := abs_nonneg (change.price_change_percent * response_ratios aggressiveness)
  exact mul_nonneg (mul_nonneg this (by linarith)) (by norm_num)

/-- A price-decrease change used to witness C10. -/
def aggressiveCompetitorChange : PricingChange :=
  { product_name := "P", current_price := 100, new_price := 90
    price_change_percent := -10, current_monthly_volume := 50 }

/-- Witness for C10 at a concrete price decrease against a very aggressive
competitor with 40% market share. -/
theorem C10_witness :
    0 < response_ratios "very_high" ∧
    ¬ (aggressiveCompetitorChange.price_change_percent * response_ratios "very_high"
        * aggressiveCompetitorChange.price_change_percent < 0) ∧
    0 ≤ (estimate_competitor_response aggressiveCompetitorChange "very_high" 40).impact_on_us :=
  C10_impact_on_us_nonneg aggressiveCompetitorChange "very_high" 40
    (by norm_num [aggressiveCompetitorChange]) (by norm_num)


lemma strContains_high_hmc : strContains "high" "high_monte_carlo" = true := by decide
lemma strContains_high_mmc : strContains "high" "medium_monte_carlo" = false := by decide
lemma strContains_high_hseg : strContains "high" "high_segment" = true := by decide
lemma strContains_high_hcomp : strContains "high" "high_competitive" = true := by decide

/-- C6: `_assess_overall_risk_level` equals the contributor-counting rule:
probability of loss > 0.3 is a high contributor and in (0.1, 0.3] a medium
contributor; segment and competitive overall risk "high" are high
contributors; >= 2 highs gives "high", exactly 1 high or >= 2 total
contributors gives "medium", otherwise "low". -/
theorem C6_aggregator_risk_counting (probability_of_loss : ℚ)
    (segment_overall_risk_level competitive_risk_level : Option String) :
    assess_overall_risk_level probability_of_loss segment_overall_risk_level
        competitive_risk_level =
      (if (if probability_of_loss > 3/10 then 1 else 0)
          + (if segment_overall_risk_level = some "high" then 1 else 0)
          + (if competitive_risk_level = some "high" then 1 else 0) ≥ (2:ℕ) then "high"
       else if ((if probability_of_loss > 3/10 then 1 else 0)
          + (if segment_overall_risk_level = some "high" then 1 else 0)
          + (if competitive_risk_level = some "high" then 1 else 0) = (1:ℕ))
          ∨ ((if probability_of_loss > 3/10 then 1 else 0)
          + (if segment_overall_risk_level = some "high" then 1 else 0)
          + (if competitive_risk_level = some "high" then 1 else 0)
          + (if 1/10 < probability_of_loss ∧ probability_of_loss ≤ 3/10 then 1 else 0) ≥ (2:ℕ))
          then "medium"
       else "low") := by
  by_cases h3 : probability_of_loss > 3/10
  · have hm : ¬ (1/10 < probability_of_loss ∧ probability_of_loss ≤ 3/10) :=
      fun hcontr => absurd h3 (not_lt.mpr hcontr.2)
    by_cases hs : segment_overall_risk_level = some "high" <;>
      by_cases hc : competitive_risk_level = some "high" <;>
      (simp only [assess_overall_risk_level, if_pos h3] <;>
       simp [hs, hc, hm, strContains_high_hmc, strContains_high_mmc,
         strContains_high_hseg, strContains_high_hcomp, List.filter])
  · by_cases h1 : probability_of_loss > 1/10
    · have hm : 1/10 < probability_of_loss ∧ probability_of_loss ≤ 3/10 :=
        ⟨h1, not_lt.mp h3⟩
      by_cases hs : segment_overall_risk_level = some "high" <;>
        by_cases hc : competitive_risk_level = some "high" <;>
        (simp only [assess_overall_risk_level, if_neg h3, if_pos h1] <;>
         simp [hs, hc, hm, strContains_high_hmc, strContains_high_mmc,
           strContains_high_hseg, strContains_high_hcomp, List.filter] <;>
         try (split_ifs <;> first | rfl | (exfalso; omega)))
    · have hm : ¬ (1/10 < probability_of_loss ∧ probability_of_loss ≤ 3/10) :=
        fun hcontr => absurd hcontr.1 h1
      by_cases hs : segment_overall_risk_level = some "high" <;>
        by_cases hc : competitive_risk_level = some "high" <;>
        (simp only [assess_overall_risk_level, if_neg h3, if_neg h1] <;>
         simp [hs, hc, hm, strContains_high_hmc, strContains_high_mmc,
           strContains_high_hseg, strContains_high_hcomp, List.filter] <;>
         try (split_ifs <;> first | rfl | (exfalso; omega)))


lemma sum_indicator (l : List ℚ) :
    (l.map fun r => if r < 0 then (1:ℚ) else 0).sum
      = ((l.filter fun r => decide (r < 0)).length : ℚ) := by
  induction l with
  | nil => simp
  | cons a t ih =>
    by_cases h : a < 0 <;> simp [List.filter_cons, h, ih] <;> push_cast <;> ring

lemma rint_le_int (q : ℚ) (n : ℤ) (h : q ≤ n) : rint q ≤ n := by
  have hf : ⌊q⌋ ≤ n := by
    have := Int.floor_le_floor h
    simpa using this
  simp only [rint]
  split_ifs with hlt hgt heven
  · exact hf
  · have hr : (1:ℚ)/2 ≤ q - ⌊q⌋ := not_lt.mp hlt
    have : (⌊q⌋ : ℚ) < n := by
      have := Int.floor_le q
      linarith
    have : ⌊q⌋ < n := by exact_mod_cast this
    omega
  · exact hf
  · have hr : (1:ℚ)/2 ≤ q - ⌊q⌋ := not_lt.mp hlt
    have : (⌊q⌋ : ℚ) < n := by linarith
    have : ⌊q⌋ < n := by exact_mod_cast this
    omega

/-- C7 (amended): the Monte Carlo `probability_of_loss` equals the fraction
of runs with total revenue < 0 rounded half-even to three decimal places,
and always lies in [0, 1]. -/
theorem C7_probability_of_loss_rounded_fraction (pricing_changes : List PricingChange)
    (samples : List MonteCarloSample) (h : samples ≠ []) :
    (run_monte_carlo_simulation pricing_changes samples).probability_of_loss
      = roundTo ((((samples.map (run_revenue pricing_changes)).filter
          (fun r => decide (r < 0))).length : ℚ) / (samples.length : ℚ)) 3 ∧
    0 ≤ (run_monte_carlo_simulation pricing_changes samples).probability_of_loss ∧
    (run_monte_carlo_simulation pricing_changes samples).probability_of_loss ≤ 1 := by
  have hN : (0:ℚ) < (samples.length : ℚ) := by
    have := List.length_pos.mpr h
    exact_mod_cast this
  have heq : (run_monte_carlo_simulation pricing_changes samples).probability_of_loss
      = roundTo ((((samples.map (run_revenue pricing_changes)).filter
          (fun r => decide (r < 0))).length : ℚ) / (samples.length : ℚ)) 3 := by
    simp only [run_monte_carlo_simulation, probabilityOfLoss, npMean, sum_indicator,
      List.length_map]
  have hfrac0 : (0:ℚ) ≤ (((samples.map (run_revenue pricing_changes)).filter
      (fun r => decide (r < 0))).length : ℚ) / (samples.length : ℚ) :=
    div_nonneg (by positivity) hN.le
  have hfrac1 : (((samples.map (run_revenue pricing_changes)).filter
      (fun r => decide (r < 0))).length : ℚ) / (samples.length : ℚ) ≤ 1 := by
    rw [div_le_one hN]
    have hle : ((samples.map (run_revenue pricing_changes)).filter
        (fun r => decide (r < 0))).length ≤ samples.length := by
      have := List.length_filter_le (fun r => decide (r < 0))
        (samples.map (run_revenue pricing_changes))
      simpa using this
    exact_mod_cast hle
  refine ⟨heq, ?_, ?_⟩
  · rw [heq]; exact roundTo_nonneg _ _ hfrac0
  · rw [heq]
    unfold roundTo
    rw [div_le_one (by positivity)]
    have h1000 : (((samples.map (run_revenue pricing_changes)).filter
        (fun r => decide (r < 0))).length : ℚ) / (samples.length : ℚ) * (10:ℚ)^3
        ≤ ((1000 : ℤ) : ℚ) := by
      push_cast
      nlinarith
    have := rint_le_int _ 1000 h1000
    calc ((rint ((((samples.map (run_revenue pricing_changes)).filter
          (fun r => decide (r < 0))).length : ℚ) / (samples.length : ℚ) * (10:ℚ)^3) : ℤ) : ℚ)
        ≤ ((1000 : ℤ) : ℚ) := by exact_mod_cast this
      _ = (10:ℚ)^3 := by norm_num

def mcNoLoss : MonteCarloSample :=
  { elasticity := -12/10, seasonal_factor := 1, competitive_intensity := 0 }

def mcLoss : MonteCarloSample :=
  { elasticity := -12/10, seasonal_factor := 1, competitive_intensity := 2 }

def mcSamples : List MonteCarloSample := [mcNoLoss, mcNoLoss, mcLoss]

/-- C7 counterexample: with three runs of which exactly one loses money the
reported `probability_of_loss` is 0.333, not the exact fraction 1/3. -/
theorem C7_counterexample :
    ((mcSamples.map (run_revenue [productA])).filter (fun r => decide (r < 0))).length = 1 ∧
    mcSamples.length = 3 ∧
    (run_monte_carlo_simulation [productA] mcSamples).probability_of_loss = 333/1000 ∧
    (333/1000 : ℚ) ≠ (1:ℚ)/3 := by
  refine ⟨?_, rfl, ?_, by norm_num⟩
  · norm_num [mcSamples, mcNoLoss, mcLoss, run_revenue, productA, List.filter]
  · simp only [run_monte_carlo_simulation, probabilityOfLoss, npMean, mcSamples,
      mcNoLoss, mcLoss, productA, run_revenue, List.map_cons, List.map_nil]
    norm_num [roundTo, rint, Int.fract]

def mcZeroSample : MonteCarloSample :=
  { elasticity := 0, seasonal_factor := 0, competitive_intensity := 0 }

/-- Witness for C7 at one run of an empty change list. -/
theorem C7_witness :
    (run_monte_carlo_simulation [] [mcZeroSample]).probability_of_loss
      = roundTo (((([mcZeroSample].map (run_revenue [])).filter
          (fun r => decide (r < 0))).length : ℚ)
          / (([mcZeroSample] : List MonteCarloSample).length : ℚ)) 3 ∧
    0 ≤ (run_monte_carlo_simulation [] [mcZeroSample]).probability_of_loss ∧
    (run_monte_carlo_simulation [] [mcZeroSample]).probability_of_loss ≤ 1 :=
  C7_probability_of_loss_rounded_fraction [] [mcZeroSample] (by simp)

end ImpactSim
